import Mathlib

/-!
Shallow embedding of the thread-lifecycle tracker (`ForumManager`) of the
discord-scanner-bot repository (src/forumManager.ts).

Time is modelled as `Nat` epoch milliseconds.  Thread ids, user ids and tag
ids are strings, as in the source.  The two process-wide maps
`activeThreads : Map<string, Timeout>` and `pendingClosures : Map<string,
number>` are modelled as association lists; a timer handle is represented by
its fire time (the callback is fixed: lock the thread and clean up the maps,
see `fireTimer`).  Chat-platform calls that can fail are modelled by boolean
success parameters at the call sites the source wraps in try/catch.
-/

namespace ForumManager

abbrev ThreadId := String

def SOLVED_TAG_ID : String := "1349920578987102250"

def WAITING_REPLY_TAG_ID : String := "1351244087642292295"

/-- 60 * 60 * 1000 — one hour in milliseconds. -/
def AUTO_CLOSE_DELAY : Nat := 60 * 60 * 1000

def MOD_ROLE_ID : String := "1022899638140928022"

/-- The slice of a Discord thread's state the tracker reads and writes. -/
structure Thread where
  id : ThreadId
  ownerId : String
  name : String
  tags : List String
  locked : Bool
deriving Repr, DecidableEq

/-- A persisted row of the `scheduled_closes` table.  `scheduled_time` is
stored as ISO-8601 TEXT in the source; here it is epoch milliseconds. -/
structure ScheduledClose where
  thread_id : ThreadId
  scheduled_time : Nat
deriving Repr, DecidableEq

/-- Association-list lookup, modelling `Map.get`. -/
def mget {β : Type} : List (ThreadId × β) → ThreadId → Option β
  | [], _ => none
  | (k, v) :: rest, key => if k == key then some v else mget rest key

/-- `Map.has`. -/
def mhas {β : Type} (m : List (ThreadId × β)) (key : ThreadId) : Bool :=
  (mget m key).isSome

/-- `Map.set`: replaces the entry for the key, or appends one. -/
def mset {β : Type} : List (ThreadId × β) → ThreadId → β → List (ThreadId × β)
  | [], key, v => [(key, v)]
  | (k, v') :: rest, key, v =>
    if k == key then (key, v) :: rest else (k, v') :: mset rest key v

/-- `Map.delete`. -/
def mdel {β : Type} (m : List (ThreadId × β)) (key : ThreadId) : List (ThreadId × β) :=
  m.filter (fun e => e.1 != key)

/-- In-memory and persisted tracker state: the static maps `activeThreads`
(thread id ↦ fire time of the armed `setTimeout`) and `pendingClosures`
(thread id ↦ close time), plus the `scheduled_closes` table. -/
structure TrackerState where
  activeThreads : List (ThreadId × Nat)
  pendingClosures : List (ThreadId × Nat)
  store : List ScheduledClose
deriving Repr, DecidableEq

/-- `scheduleThreadClose`: computes `delay = scheduledTime - Date.now()`,
returns immediately when `delay <= 0`, otherwise arms a timer recorded in
`activeThreads`.  `pendingClosures` is never touched here. -/
def scheduleThreadClose (s : TrackerState) (threadId : ThreadId)
    (scheduledTime now : Nat) : TrackerState :=
  if scheduledTime ≤ now then s
  else ⟨mset s.activeThreads threadId scheduledTime, s.pendingClosures, s.store⟩

/-- `updateWaitingReplyTag` as a pure function of the current tag list.
`isOP` is false when the source is called with the boolean `false` (the
mark-as-solved path).  Returns the applied tag list after the call. -/
def updateWaitingReplyTag (tags : List String) (isOP : Bool) : List String :=
  let isSolved := tags.contains SOLVED_TAG_ID
  if isOP && !isSolved then
    if tags.contains WAITING_REPLY_TAG_ID then tags
    else tags ++ [WAITING_REPLY_TAG_ID]
  else if tags.contains WAITING_REPLY_TAG_ID then
    tags.filter (fun t => t != WAITING_REPLY_TAG_ID)
  else tags

/-- Case-insensitive (ASCII, as in a JS `/i` regex) prefix test. -/
def isPrefixCI : List Char → List Char → Bool
  | [], _ => true
  | _ :: _, [] => false
  | p :: ps, c :: cs => (c.toLower == p.toLower) && isPrefixCI ps cs

/-- First-occurrence case-insensitive replacement over characters, the
semantics of `String.replace(/pat/i, repl)` for a literal pattern. -/
def replaceFirstCIAux (pat repl : List Char) : List Char → List Char
  | [] => []
  | c :: cs =>
    if isPrefixCI pat (c :: cs) then repl ++ (c :: cs).drop pat.length
    else c :: replaceFirstCIAux pat repl cs

def replaceFirstCI (s pat repl : String) : String :=
  ⟨replaceFirstCIAux pat.data repl.data s.data⟩

/-- `storeScheduledClose`: BEGIN; DELETE the existing row for the id; INSERT
the new row; COMMIT — or ROLLBACK on error, leaving the table unchanged.
The error is caught and logged, never rethrown. -/
def storeScheduledClose (store : List ScheduledClose) (threadId : ThreadId)
    (scheduledTime : Nat) (writeOk : Bool) : List ScheduledClose :=
  if writeOk then
    store.filter (fun r => r.thread_id != threadId) ++ [⟨threadId, scheduledTime⟩]
  else store

structure MarkResult where
  tracker : TrackerState
  thread : Thread
deriving Repr, DecidableEq

/-- `markAsSolved`: rename `[unsolved]` → `[solved]`; best-effort edit of the
status embed; clear the waiting-for-reply tag via
`updateWaitingReplyTag(thread, false)`; persist `now + AUTO_CLOSE_DELAY`;
arm the auto-close timer.  The whole body is wrapped in try/catch: a
platform failure (modelled at the `setName` call by `setNameOk = false`)
aborts the rest and is only logged.  A store-write failure is caught inside
`storeScheduledClose` and does not abort the remainder.  No statement in the
body ever adds `SOLVED_TAG_ID` to the thread's tags. -/
def markAsSolved (s : TrackerState) (th : Thread) (now : Nat)
    (setNameOk storeWriteOk : Bool) : MarkResult :=
  if !setNameOk then ⟨s, th⟩
  else
    let th1 : Thread :=
      ⟨th.id, th.ownerId, replaceFirstCI th.name "[unsolved]" "[solved]", th.tags, th.locked⟩
    let th2 : Thread :=
      ⟨th1.id, th1.ownerId, th1.name, updateWaitingReplyTag th1.tags false, th1.locked⟩
    let scheduledTime := now + AUTO_CLOSE_DELAY
    let store1 := storeScheduledClose s.store th.id scheduledTime storeWriteOk
    let s1 := scheduleThreadClose ⟨s.activeThreads, s.pendingClosures, store1⟩
      th.id scheduledTime now
    ⟨s1, th2⟩

/-- The replies the two command handlers can produce. -/
inductive Reply where
  | notInForumPost
  | notInHelpForum
  | alreadySolved (closeTime : Nat)
  | notAuthorized
  | solvedSuccess (closeTime : Nat)
  | notInForumThreads
  | lockedInfo
  | unsolvedConfirm
  | errorOccurred
deriving Repr, DecidableEq

/-- The `ephemeral:` flag of each `interaction.reply` call in the source.
Note line 612-615: the unsolved confirmation is sent with `ephemeral: true`. -/
def Reply.ephemeral : Reply → Bool
  | .solvedSuccess _ => false
  | _ => true

structure CommandResult where
  tracker : TrackerState
  thread : Thread
  reply : Reply
deriving Repr, DecidableEq

/-- `handleSolvedCommand`.  `isThread` / `inForum` model the
`interaction.channel.isThread()` and forum-channel-id guards; `userId` and
`hasModRole` describe the invoking actor. -/
def handleSolvedCommand (s : TrackerState) (isThread : Bool) (th : Thread)
    (inForum : Bool) (userId : String) (hasModRole : Bool) (now : Nat)
    (setNameOk storeWriteOk : Bool) : CommandResult :=
  if !isThread then ⟨s, th, .notInForumPost⟩
  else if !inForum then ⟨s, th, .notInHelpForum⟩
  else
    match mget s.pendingClosures th.id with
    | some closeTime => ⟨s, th, .alreadySolved closeTime⟩
    | none =>
      if th.ownerId != userId && !hasModRole then ⟨s, th, .notAuthorized⟩
      else
        let r := markAsSolved s th now setNameOk storeWriteOk
        let closeTime := now + AUTO_CLOSE_DELAY
        ⟨⟨r.tracker.activeThreads,
          mset r.tracker.pendingClosures th.id closeTime,
          r.tracker.store⟩,
         r.thread, .solvedSuccess closeTime⟩

/-- `handleUnsolvedCommand`.  The source reads `interaction.user.id` only to
interpolate it into the edited embed text: no authorization comparison is
made against `userId` or `hasModRole`, and no forum-channel check is made.
On a non-locked thread it cancels the timer entry (when one exists), deletes
the persisted row, renames `[solved]` → `[unsolved]`, removes the solved tag
when present, and replies with `ephemeral: true`. -/
def handleUnsolvedCommand (s : TrackerState) (isThread : Bool) (th : Thread)
    (userId : String) (hasModRole : Bool) : CommandResult :=
  if !isThread then ⟨s, th, .notInForumThreads⟩
  else if th.locked then ⟨s, th, .lockedInfo⟩
  else
    let s1 : TrackerState :=
      match mget s.activeThreads th.id with
      | some _ => ⟨mdel s.activeThreads th.id, mdel s.pendingClosures th.id, s.store⟩
      | none => s
    let s2 : TrackerState :=
      ⟨s1.activeThreads, s1.pendingClosures,
       s1.store.filter (fun r => r.thread_id != th.id)⟩
    let th1 : Thread :=
      ⟨th.id, th.ownerId, replaceFirstCI th.name "[solved]" "[unsolved]", th.tags, th.locked⟩
    let th2 : Thread :=
      if th1.tags.contains SOLVED_TAG_ID then
        ⟨th1.id, th1.ownerId, th1.name,
         th1.tags.filter (fun t => t != SOLVED_TAG_ID), th1.locked⟩
      else th1
    ⟨s2, th2, .unsolvedConfirm⟩

/-- The chat platform's threads, keyed by channel id. -/
abbrev Platform := List (ThreadId × Thread)

/-- `client.channels.fetch`: `none` models a rejected fetch (deleted
thread), which at each call site raises into the surrounding try/catch. -/
def fetchThread (p : Platform) (id : ThreadId) : Option Thread := mget p id

def setThreadLocked (p : Platform) (id : ThreadId) : Platform :=
  p.map (fun e =>
    if e.1 == id then (e.1, ⟨e.2.id, e.2.ownerId, e.2.name, e.2.tags, true⟩) else e)

def msPerDay : Nat := 24 * 60 * 60 * 1000

/-- The restore query `SELECT * FROM scheduled_closes WHERE scheduled_time >
datetime("now")` compares TEXT: stored values are `toISOString()` with a
`'T'` date-time separator while `datetime('now')` uses a space, so the
lexicographic comparison reduces to: the row's UTC calendar date is not
earlier than today's ('T' sorts above ' ' whenever the date prefixes tie). -/
def sqlFutureFilter (now t : Nat) : Bool := now / msPerDay ≤ t / msPerDay

/-- The loop body of `restoreScheduledCloses`: for each selected row, fetch
the thread (a rejected fetch raises into the function's catch, abandoning
the remaining rows) and, when it exists and is not locked, re-arm via
`scheduleThreadClose`.  `pendingClosures` is never written. -/
def restoreLoop (p : Platform) (now : Nat) :
    List ScheduledClose → TrackerState → TrackerState
  | [], s => s
  | row :: rest, s =>
    match fetchThread p row.thread_id with
    | none => s
    | some th =>
      let s1 := if !th.locked then
          scheduleThreadClose s row.thread_id row.scheduled_time now
        else s
      restoreLoop p now rest s1

def restoreScheduledCloses (p : Platform) (s : TrackerState) (now : Nat) :
    TrackerState :=
  restoreLoop p now (s.store.filter (fun r => sqlFutureFilter now r.scheduled_time)) s

structure World where
  platform : Platform
  tracker : TrackerState
deriving Repr, DecidableEq

/-- The `setTimeout` callback armed by `scheduleThreadClose`: re-fetch the
thread (tolerating deletion by only cleaning the maps), lock it, update or
post the closure embed, and delete the id from both maps. -/
def fireTimer (w : World) (id : ThreadId) : World :=
  match fetchThread w.platform id with
  | none =>
    ⟨w.platform,
     ⟨mdel w.tracker.activeThreads id, mdel w.tracker.pendingClosures id,
      w.tracker.store⟩⟩
  | some _ =>
    ⟨setThreadLocked w.platform id,
     ⟨mdel w.tracker.activeThreads id, mdel w.tracker.pendingClosures id,
      w.tracker.store⟩⟩

/-- Timers whose fire time has been reached at wall-clock `t`. -/
def dueTimers (s : TrackerState) (t : Nat) : List (ThreadId × Nat) :=
  s.activeThreads.filter (fun e => decide (e.2 ≤ t))

/-- Advance the clock to `t`: every armed timer whose fire time has been
reached runs its callback.  An id never armed in `activeThreads` can never
be locked this way. -/
def advanceTo (w : World) (t : Nat) : World :=
  (dueTimers w.tracker t).foldl (fun w' e => fireTimer w' e.1) w

/-- JS `\w` word character: `[A-Za-z0-9_]`. -/
def isWordChar (c : Char) : Bool := c.isAlphanum || c == '_'

/-- JS `\s` whitespace (the ASCII part). -/
def isJsSpace (c : Char) : Bool :=
  c == ' ' || c == '\t' || c == '\n' || c == '\r' ||
  c == Char.ofNat 11 || c == Char.ofNat 12

def thankKeywords : List (List Char) :=
  ["thank".data, "thanks".data, "thx".data, "thankyou".data, "ty".data]

/-- `true` when the part of the string after a candidate match starts at a
word boundary (`\b`): end of string or a non-word character. -/
def boundaryAfter : List Char → Bool
  | [] => true
  | c :: _ => !isWordChar c

/-- Existence of a match of `/\b(?:thank|thanks|thx|thankyou|ty)\b/i`
anywhere in the text: scan every position, carrying the previous character
to decide the left word boundary. -/
def wordMatchAux (kws : List (List Char)) (prev : Option Char) :
    List Char → Bool
  | [] => false
  | c :: cs =>
    let boundaryBefore :=
      match prev with
      | none => true
      | some p => !isWordChar p
    (boundaryBefore && kws.any (fun k =>
        isPrefixCI k (c :: cs) && boundaryAfter ((c :: cs).drop k.length)))
    || wordMatchAux kws (some c) cs

/-- Existence of a match of `/(?:^|\s)kw(?:\s|$)/i` anywhere in the text. -/
def edgeMatchAux (kw : List Char) (prev : Option Char) : List Char → Bool
  | [] => false
  | c :: cs =>
    let okBefore :=
      match prev with
      | none => true
      | some p => isJsSpace p
    let okAfter :=
      match (c :: cs).drop kw.length with
      | [] => true
      | d :: _ => isJsSpace d
    (okBefore && isPrefixCI kw (c :: cs) && okAfter)
    || edgeMatchAux kw (some c) cs

/-- `isThankYouMessage`: three patterns, any match suffices. -/
def isThankYouMessage (content : String) : Bool :=
  wordMatchAux thankKeywords none content.data
  || edgeMatchAux "ty".data none content.data
  || edgeMatchAux "thx".data none content.data

/-! ## Helper lemmas -/

theorem mget_mset_self {β : Type} (m : List (ThreadId × β)) (k : ThreadId) (v : β) :
    mget (mset m k v) k = some v := by
  induction m with
  | nil => simp [mset, mget]
  | cons e rest ih =>
    obtain ⟨k', v'⟩ := e
    by_cases h : k' == k
    · simp [mset, h, mget]
    · simp only [mset, h, if_false, Bool.false_eq_true, mget]
      simp [h, ih]

theorem mget_mdel_self {β : Type} (m : List (ThreadId × β)) (k : ThreadId) :
    mget (mdel m k) k = none := by
  induction m with
  | nil => simp [mdel, mget]
  | cons e rest ih =>
    obtain ⟨k', v'⟩ := e
    by_cases h : k' == k
    · simpa [mdel, List.filter_cons, bne, h] using ih
    · simp only [mdel, List.filter_cons, bne] at ih ⊢
      simp [mget, h, ih]

theorem auto_close_delay_not_le (now : Nat) : ¬ (now + AUTO_CLOSE_DELAY ≤ now) := by
  simp [AUTO_CLOSE_DELAY]

/-- Evaluation of a `/solved` command on a fresh tracker by an authorized
actor: the timer, the pending-closure mirror and the persisted row all
record `now + AUTO_CLOSE_DELAY`; the thread is renamed and its
waiting-for-reply tag cleared. -/
theorem handleSolved_fresh_eq (th : Thread) (userId : String) (hasModRole : Bool)
    (now : Nat) (ha : th.ownerId = userId ∨ hasModRole = true) :
    handleSolvedCommand ⟨[], [], []⟩ true th true userId hasModRole now true true =
      ⟨⟨[(th.id, now + AUTO_CLOSE_DELAY)], [(th.id, now + AUTO_CLOSE_DELAY)],
        [⟨th.id, now + AUTO_CLOSE_DELAY⟩]⟩,
       ⟨th.id, th.ownerId, replaceFirstCI th.name "[unsolved]" "[solved]",
        updateWaitingReplyTag th.tags false, th.locked⟩,
       .solvedSuccess (now + AUTO_CLOSE_DELAY)⟩ := by
  have hauth : (th.ownerId != userId && !hasModRole) = false := by
    rcases ha with h | h <;> simp [h]
  simp [handleSolvedCommand, mget, hauth, markAsSolved, storeScheduledClose,
    scheduleThreadClose, auto_close_delay_not_le now, mset]

/-! ## Claim theorems -/

/-- C1: the mark-as-solved transition is claimed to leave the thread's tag
set containing the solved tag and not containing the waiting-for-reply tag.
The code clears the waiting-for-reply tag but no statement of `markAsSolved`
(nor any other code path) ever adds `SOLVED_TAG_ID`: on a thread whose only
tag is the waiting-for-reply tag, a fully successful `markAsSolved` leaves
the tag set empty, so the solved tag is absent. -/
theorem markAsSolved_never_applies_solved_tag :
    (markAsSolved ⟨[], [], []⟩
        ⟨"t1", "u1", "[unsolved] help", [WAITING_REPLY_TAG_ID], false⟩
        1000 true true).thread.tags = [] ∧
    SOLVED_TAG_ID ∉ (markAsSolved ⟨[], [], []⟩
        ⟨"t1", "u1", "[unsolved] help", [WAITING_REPLY_TAG_ID], false⟩
        1000 true true).thread.tags := by
  decide

/-- C2: `activeThreads` and `pendingClosures` are claimed to stay key-synced
after every operation, startup restore included.  Restoring a store holding
one future-dated row for an unlocked thread arms the timer (the key enters
`activeThreads`) but `restoreScheduledCloses` never writes
`pendingClosures`, so the two maps desynchronize. -/
theorem restore_desyncs_pending_closures :
    mhas (restoreScheduledCloses [("t1", ⟨"t1", "u1", "[solved] help", [], false⟩)]
        ⟨[], [], [⟨"t1", 7200000⟩]⟩ 3600000).activeThreads "t1" = true ∧
    mhas (restoreScheduledCloses [("t1", ⟨"t1", "u1", "[solved] help", [], false⟩)]
        ⟨[], [], [⟨"t1", 7200000⟩]⟩ 3600000).pendingClosures "t1" = false := by
  decide

/-- C3 counterexample: with the store write failing (transaction rolled
back, store left empty), `markAsSolved` still proceeds to arm the timer, so
`activeThreads` gains an entry pointing at a schedule that does not exist in
the store — refuting the claim that a failed store write adds no entry. -/
theorem store_failure_leaves_timer_cex :
    (markAsSolved ⟨[], [], []⟩ ⟨"t1", "u1", "q", [], false⟩ 1000 true false).tracker.store
      = [] ∧
    mhas (markAsSolved ⟨[], [], []⟩ ⟨"t1", "u1", "q", [], false⟩
        1000 true false).tracker.activeThreads "t1" = true := by
  decide

/-- C3 amended: a failed store write rolls the transaction back (the store
is unchanged) and the error is swallowed inside `storeScheduledClose`, after
which `markAsSolved` still arms the in-process timer: `activeThreads` gains
the thread id even though no row was persisted. -/
theorem store_failure_timer_still_armed (s : TrackerState) (th : Thread) (now : Nat) :
    (markAsSolved s th now true false).tracker.store = s.store ∧
    mget (markAsSolved s th now true false).tracker.activeThreads th.id
      = some (now + AUTO_CLOSE_DELAY) := by
  constructor
  · simp [markAsSolved, storeScheduledClose, scheduleThreadClose,
      auto_close_delay_not_le now]
  · simp [markAsSolved, storeScheduledClose, scheduleThreadClose,
      auto_close_delay_not_le now, mget_mset_self]

theorem store_failure_timer_still_armed_witness :
    (markAsSolved ⟨[], [], []⟩ ⟨"t1", "u1", "q", [], false⟩
        1000 true false).tracker.store = [] ∧
    mget (markAsSolved ⟨[], [], []⟩ ⟨"t1", "u1", "q", [], false⟩
        1000 true false).tracker.activeThreads "t1" = some (1000 + AUTO_CLOSE_DELAY) :=
  store_failure_timer_still_armed ⟨[], [], []⟩ ⟨"t1", "u1", "q", [], false⟩ 1000

/-- C9: `isThankYouMessage` is a case-insensitive whole-word match on
thank/thanks/thx/thankyou/ty: true on "ty!", "Thanks so much" and "THX",
false on "destiny" and "Thxgiving" (no match inside a larger word). -/
theorem isThankYouMessage_word_boundary :
    isThankYouMessage "ty!" = true ∧
    isThankYouMessage "Thanks so much" = true ∧
    isThankYouMessage "THX" = true ∧
    isThankYouMessage "destiny" = false ∧
    isThankYouMessage "Thxgiving" = false := by
  decide

/-- C10: when the scheduled time is not later than `now`, the computed delay
is ≤ 0 and `scheduleThreadClose` returns without arming a timer or touching
either map; consequently restoring a store whose row for a thread has
already passed leaves the tracker unchanged (no timer), and no advance of
the clock ever locks that thread. -/
theorem schedule_past_time_never_locks (s : TrackerState) (id : ThreadId)
    (tSched now : Nat) (th : Thread) (h : tSched ≤ now) :
    scheduleThreadClose s id tSched now = s ∧
    restoreScheduledCloses [(id, th)] ⟨[], [], [⟨id, tSched⟩]⟩ now
      = ⟨[], [], [⟨id, tSched⟩]⟩ ∧
    ∀ t, advanceTo ⟨[(id, th)], ⟨[], [], [⟨id, tSched⟩]⟩⟩ t
      = ⟨[(id, th)], ⟨[], [], [⟨id, tSched⟩]⟩⟩ := by
  have hsch : scheduleThreadClose ⟨[], [], [⟨id, tSched⟩]⟩ id tSched now
      = ⟨[], [], [⟨id, tSched⟩]⟩ := by
    simp [scheduleThreadClose, h]
  refine ⟨by simp [scheduleThreadClose, h], ?_, ?_⟩
  · by_cases hf : sqlFutureFilter now tSched
    · simp [restoreScheduledCloses, hf, restoreLoop, fetchThread, mget, hsch]
    · simp [restoreScheduledCloses, hf, restoreLoop]
  · intro t
    simp [advanceTo, dueTimers]

theorem schedule_past_time_never_locks_witness :
    (1000 : Nat) ≤ 2000 ∧
    scheduleThreadClose ⟨[], [], []⟩ "t1" 1000 2000 = ⟨[], [], []⟩ ∧
    advanceTo ⟨[("t1", ⟨"t1", "u", "n", [], false⟩)], ⟨[], [], [⟨"t1", 1000⟩]⟩⟩ 999999
      = ⟨[("t1", ⟨"t1", "u", "n", [], false⟩)], ⟨[], [], [⟨"t1", 1000⟩]⟩⟩ :=
  ⟨by decide,
   (schedule_past_time_never_locks ⟨[], [], []⟩ "t1" 1000 2000
      ⟨"t1", "u", "n", [], false⟩ (by decide)).1,
   (schedule_past_time_never_locks ⟨[], [], []⟩ "t1" 1000 2000
      ⟨"t1", "u", "n", [], false⟩ (by decide)).2.2 999999⟩

/-- C4 counterexample: the actor "rando" is neither the thread owner
("owner") nor a moderator-role holder, and the thread is not locked, yet
`handleUnsolvedCommand` does not reject: it performs the full reversal
(timer cancelled, row deleted, thread renamed, solved tag removed) and
confirms with an ephemeral — not public — reply. -/
theorem unsolved_unauthorized_cex :
    (handleUnsolvedCommand ⟨[("t1", 99)], [("t1", 99)], [⟨"t1", 99⟩]⟩ true
        ⟨"t1", "owner", "[solved] q", [SOLVED_TAG_ID], false⟩ "rando" false).reply
      = .unsolvedConfirm ∧
    Reply.ephemeral (handleUnsolvedCommand ⟨[("t1", 99)], [("t1", 99)], [⟨"t1", 99⟩]⟩
        true ⟨"t1", "owner", "[solved] q", [SOLVED_TAG_ID], false⟩ "rando" false).reply
      = true ∧
    (handleUnsolvedCommand ⟨[("t1", 99)], [("t1", 99)], [⟨"t1", 99⟩]⟩ true
        ⟨"t1", "owner", "[solved] q", [SOLVED_TAG_ID], false⟩ "rando" false).tracker
      = ⟨[], [], []⟩ ∧
    (handleUnsolvedCommand ⟨[("t1", 99)], [("t1", 99)], [⟨"t1", 99⟩]⟩ true
        ⟨"t1", "owner", "[solved] q", [SOLVED_TAG_ID], false⟩ "rando" false).thread
      = ⟨"t1", "owner", "[unsolved] q", [], false⟩ := by
  decide

/-- C4 amended: `handleUnsolvedCommand` performs no authorization check on a
non-locked thread — for every actor (owner or not, moderator or not) it
cancels the active timer entry, deletes the persisted row, renames the
thread, removes the solved tag, and replies with an ephemeral (private, not
public) confirmation. -/
theorem unsolved_no_auth_check (s : TrackerState) (th : Thread) (userId : String)
    (hasModRole : Bool) (r : CommandResult) (hlock : th.locked = false)
    (hr : r = handleUnsolvedCommand s true th userId hasModRole) :
    r.reply = .unsolvedConfirm ∧
    Reply.ephemeral r.reply = true ∧
    mget r.tracker.activeThreads th.id = none ∧
    (mhas s.activeThreads th.id = true →
      mget r.tracker.pendingClosures th.id = none) ∧
    (∀ row ∈ r.tracker.store, row.thread_id ≠ th.id) ∧
    r.thread.name = replaceFirstCI th.name "[solved]" "[unsolved]" ∧
    SOLVED_TAG_ID ∉ r.thread.tags := by
  subst hr
  rcases hm : mget s.activeThreads th.id with _ | c <;>
    by_cases hc : th.tags.contains SOLVED_TAG_ID <;>
      simp_all [handleUnsolvedCommand, hlock, hm, hc, Reply.ephemeral, mhas,
        mget_mdel_self, List.mem_filter]

theorem unsolved_no_auth_check_witness :
    (⟨"t1", "owner", "[solved] q", [SOLVED_TAG_ID], false⟩ : Thread).locked = false ∧
    (handleUnsolvedCommand ⟨[("t1", 99)], [("t1", 99)], [⟨"t1", 99⟩]⟩ true
        ⟨"t1", "owner", "[solved] q", [SOLVED_TAG_ID], false⟩ "rando" false).reply
      = .unsolvedConfirm :=
  ⟨rfl,
   (unsolved_no_auth_check ⟨[("t1", 99)], [("t1", 99)], [⟨"t1", 99⟩]⟩
      ⟨"t1", "owner", "[solved] q", [SOLVED_TAG_ID], false⟩ "rando" false _
      rfl rfl).1⟩

/-- C5 counterexample: renaming the thread fails during the solved
command's transition (`setNameOk = false`), yet the command replies with the
normal public success message, not an error reply — the error is swallowed
by `markAsSolved`'s catch block. -/
theorem solved_rename_failure_cex :
    (handleSolvedCommand ⟨[], [], []⟩ true ⟨"t1", "owner", "q", [], false⟩ true
        "owner" false 1000 false true).reply = .solvedSuccess (1000 + AUTO_CLOSE_DELAY) ∧
    Reply.ephemeral (handleSolvedCommand ⟨[], [], []⟩ true
        ⟨"t1", "owner", "q", [], false⟩ true "owner" false 1000 false true).reply
      = false := by
  decide

/-- C5 amended: a platform-call failure inside the solved transition is
caught and logged by `markAsSolved` and never surfaced: even when the rename
fails (so the transition performed no thread change, no store write and no
timer), `handleSolvedCommand` still sends the normal public success reply.
Only exceptions thrown outside `markAsSolved` reach the dispatcher's
generic error reply. -/
theorem solved_swallows_platform_failure (s : TrackerState) (th : Thread)
    (userId : String) (hasModRole : Bool) (now : Nat) (storeOk : Bool)
    (hp : mget s.pendingClosures th.id = none)
    (ha : th.ownerId = userId ∨ hasModRole = true) :
    (handleSolvedCommand s true th true userId hasModRole now false storeOk).reply
      = .solvedSuccess (now + AUTO_CLOSE_DELAY) ∧
    Reply.ephemeral (handleSolvedCommand s true th true userId hasModRole now
        false storeOk).reply = false ∧
    (handleSolvedCommand s true th true userId hasModRole now false storeOk).thread
      = th ∧
    (handleSolvedCommand s true th true userId hasModRole now false storeOk).tracker.store
      = s.store ∧
    (handleSolvedCommand s true th true userId hasModRole now
        false storeOk).tracker.activeThreads = s.activeThreads := by
  have hauth : (th.ownerId != userId && !hasModRole) = false := by
    rcases ha with h | h <;> simp [h]
  simp [handleSolvedCommand, hp, hauth, markAsSolved, Reply.ephemeral]

theorem solved_swallows_platform_failure_witness :
    mget ([] : List (ThreadId × Nat)) "t1" = none ∧
    (handleSolvedCommand ⟨[], [], []⟩ true ⟨"t1", "owner", "q", [], false⟩ true
        "owner" false 1000 false true).thread = ⟨"t1", "owner", "q", [], false⟩ :=
  ⟨rfl,
   (solved_swallows_platform_failure ⟨[], [], []⟩ ⟨"t1", "owner", "q", [], false⟩
      "owner" false 1000 true rfl (Or.inl rfl)).2.2.1⟩

/-- C6 counterexample: a persisted row scheduled in the future (7200000 >
now = 3600000) whose thread is locked is selected by the restore query but
`restoreScheduledCloses` arms no timer for it, refuting the claim's
universal quantification over every future-dated row. -/
theorem restore_locked_thread_cex :
    (restoreScheduledCloses [("t1", ⟨"t1", "u", "n", [], true⟩)]
        ⟨[], [], [⟨"t1", 7200000⟩]⟩ 3600000).activeThreads = [] := by
  decide

/-- C6 amended: for a persisted future-dated row whose thread can be
fetched and is not locked, restore re-arms a timer whose fire time is
exactly the stored time: advancing the clock to any instant before that
time changes nothing, and reaching the stored time locks the thread. -/
theorem restore_future_row_rearms (th : Thread) (tSched now : Nat)
    (hlock : th.locked = false) (hfut : now < tSched) :
    mget (restoreScheduledCloses [(th.id, th)] ⟨[], [], [⟨th.id, tSched⟩]⟩
        now).activeThreads th.id = some tSched ∧
    (∀ t, t < tSched →
      advanceTo ⟨[(th.id, th)],
          restoreScheduledCloses [(th.id, th)] ⟨[], [], [⟨th.id, tSched⟩]⟩ now⟩ t
        = ⟨[(th.id, th)],
           restoreScheduledCloses [(th.id, th)] ⟨[], [], [⟨th.id, tSched⟩]⟩ now⟩) ∧
    (∀ t, tSched ≤ t →
      fetchThread (advanceTo ⟨[(th.id, th)],
          restoreScheduledCloses [(th.id, th)] ⟨[], [], [⟨th.id, tSched⟩]⟩ now⟩
            t).platform th.id
        = some ⟨th.id, th.ownerId, th.name, th.tags, true⟩) := by
  have hfil : sqlFutureFilter now tSched = true := by
    simp only [sqlFutureFilter, decide_eq_true_eq]
    exact Nat.div_le_div_right (le_of_lt hfut)
  have hnl : ¬ tSched ≤ now := by omega
  have hres : restoreScheduledCloses [(th.id, th)] ⟨[], [], [⟨th.id, tSched⟩]⟩ now
      = ⟨[(th.id, tSched)], [], [⟨th.id, tSched⟩]⟩ := by
    simp [restoreScheduledCloses, hfil, restoreLoop, fetchThread, mget, hlock,
      scheduleThreadClose, hnl, mset]
  rw [hres]
  refine ⟨by simp [mget], ?_, ?_⟩
  · intro t ht
    have hd : decide (tSched ≤ t) = false := by simp; omega
    simp [advanceTo, dueTimers, hd]
  · intro t ht
    have hd : decide (tSched ≤ t) = true := by simp [ht]
    simp [advanceTo, dueTimers, hd, fireTimer, fetchThread, mget, setThreadLocked]

theorem restore_future_row_rearms_witness :
    (3600000 : Nat) < 7200000 ∧
    mget (restoreScheduledCloses [("t1", ⟨"t1", "u", "n", [], false⟩)]
        ⟨[], [], [⟨"t1", 7200000⟩]⟩ 3600000).activeThreads "t1" = some 7200000 ∧
    fetchThread (advanceTo ⟨[("t1", ⟨"t1", "u", "n", [], false⟩)],
        restoreScheduledCloses [("t1", ⟨"t1", "u", "n", [], false⟩)]
          ⟨[], [], [⟨"t1", 7200000⟩]⟩ 3600000⟩ 7200000).platform "t1"
      = some ⟨"t1", "u", "n", [], true⟩ :=
  ⟨by decide,
   (restore_future_row_rearms ⟨"t1", "u", "n", [], false⟩ 7200000 3600000 rfl
      (by decide)).1,
   (restore_future_row_rearms ⟨"t1", "u", "n", [], false⟩ 7200000 3600000 rfl
      (by decide)).2.2 7200000 (le_refl _)⟩

/-- C7: a second `/solved` invocation on a thread already in
`pendingClosures` short-circuits to the private (ephemeral) "already marked
as solved" reply carrying the existing scheduled close time, changes
neither the tracker state (no new timer, no store write) nor the thread,
and the store keeps exactly one row for the thread id. -/
theorem solved_twice_short_circuits (th : Thread) (userId userId2 : String)
    (hasModRole hasModRole2 : Bool) (now now2 : Nat) (ok1 ok2 : Bool)
    (r1 r2 : CommandResult)
    (ha : th.ownerId = userId ∨ hasModRole = true)
    (hr1 : r1 = handleSolvedCommand ⟨[], [], []⟩ true th true userId hasModRole
      now true true)
    (hr2 : r2 = handleSolvedCommand r1.tracker true r1.thread true userId2
      hasModRole2 now2 ok1 ok2) :
    r2.reply = .alreadySolved (now + AUTO_CLOSE_DELAY) ∧
    Reply.ephemeral r2.reply = true ∧
    r2.tracker = r1.tracker ∧
    r2.thread = r1.thread ∧
    (r1.tracker.store.filter (fun row => row.thread_id == th.id)).length = 1 := by
  subst hr1 hr2
  rw [handleSolved_fresh_eq th userId hasModRole now ha]
  simp [handleSolvedCommand, mget, Reply.ephemeral, List.filter]

theorem solved_twice_short_circuits_witness :
    (handleSolvedCommand (handleSolvedCommand ⟨[], [], []⟩ true
        ⟨"t1", "owner", "[unsolved] q", [], false⟩ true "owner" false
        1000 true true).tracker
      true (handleSolvedCommand ⟨[], [], []⟩ true
        ⟨"t1", "owner", "[unsolved] q", [], false⟩ true "owner" false
        1000 true true).thread
      true "rando" true 9999 true true).reply
      = .alreadySolved (1000 + AUTO_CLOSE_DELAY) :=
  (solved_twice_short_circuits ⟨"t1", "owner", "[unsolved] q", [], false⟩ "owner"
    "rando" false true 1000 9999 true true _ _ (Or.inl rfl) rfl rfl).1

/-- C8: marking a (non-locked) thread solved and then unsolved deletes the
persisted row and cancels the armed timer — the tracker ends with empty
maps and an empty store — so advancing the clock past the originally
scheduled lock time fires no timer and the thread is never locked. -/
theorem unsolved_cancels_schedule (th : Thread) (userId userId2 : String)
    (hasModRole hasModRole2 : Bool) (now : Nat) (r1 r2 : CommandResult)
    (hlock : th.locked = false)
    (ha : th.ownerId = userId ∨ hasModRole = true)
    (hr1 : r1 = handleSolvedCommand ⟨[], [], []⟩ true th true userId hasModRole
      now true true)
    (hr2 : r2 = handleUnsolvedCommand r1.tracker true r1.thread userId2
      hasModRole2) :
    r2.tracker = ⟨[], [], []⟩ ∧
    r2.thread.locked = false ∧
    ∀ t, advanceTo ⟨[(th.id, r2.thread)], r2.tracker⟩ t
      = ⟨[(th.id, r2.thread)], r2.tracker⟩ := by
  subst hr1 hr2
  rw [handleSolved_fresh_eq th userId hasModRole now ha]
  refine ⟨?_, ?_, ?_⟩
  · simp [handleUnsolvedCommand, hlock, mget, mdel, List.filter]
  · simp [handleUnsolvedCommand, hlock, mget]
    split <;> rfl
  · intro t
    simp [handleUnsolvedCommand, hlock, mget, mdel, List.filter, advanceTo,
      dueTimers]

theorem unsolved_cancels_schedule_witness :
    (handleUnsolvedCommand (handleSolvedCommand ⟨[], [], []⟩ true
        ⟨"t1", "owner", "[unsolved] q", [], false⟩ true "owner" false
        1000 true true).tracker
      true (handleSolvedCommand ⟨[], [], []⟩ true
        ⟨"t1", "owner", "[unsolved] q", [], false⟩ true "owner" false
        1000 true true).thread
      "rando" false).tracker = ⟨[], [], []⟩ :=
  (unsolved_cancels_schedule ⟨"t1", "owner", "[unsolved] q", [], false⟩ "owner"
    "rando" false false 1000 _ _ rfl (Or.inl rfl) rfl rfl).1

end ForumManager
